import Mathlib

/-!
Verification of the embedding-driven clustering core of the QuckAI repository.

The development shallowly embeds the K-Means clustering engine
(`src/utils/kmeans.ts`, shipped here as `src/types.ts` lines 74 to 164),
the Gemini service wrappers `embedContentBatch` and `generateClusterName`
(`src/services/geminiService.ts`), and the dashboard clustering pipeline
`handleClusterProjects` (`src/pages/Dashboard.tsx`).

Modelling conventions:
- JavaScript numbers are modelled as rationals; all concrete inputs in the
  claims use small integers on which double arithmetic is exact.
- `Math.random()` draws are modelled by an explicit stream `rng : Nat -> Nat`
  together with a position counter; the JS call
  `Math.floor(Math.random() * data.length)` at the t-th draw of a run is
  modelled as `rng t % data.length`, which ranges over exactly the same
  index set.  The `while` loop of `initializeCentroids` terminates only with
  probability 1, so its embedding carries an explicit `fuel` bound on the
  number of draws attempted; all theorems quantify over the fuel.
- `async` functions that `throw` are modelled with `Except String`; a caught
  and rethrown error becomes the corresponding `Except.error` value.
-/

attribute [local semireducible] Rat.add Rat.sub Rat.mul Rat.inv

/-- The four prompt fields of a project (`src/types.ts`, `Project.prompts`). -/
structure Prompts where
  text : String
  image : String
  tts : String
  video : String
deriving Repr, DecidableEq

/-- A project, restricted to the fields the clustering pipeline reads
(`src/types.ts`, interface `Project`): its id, title and prompts.  The
remaining fields (assets, lastModified, lastActivePage) are never consulted
by `handleClusterProjects`. -/
structure Project where
  id : String
  title : String
  prompts : Prompts
deriving Repr, DecidableEq

/-- A named cluster as built by the dashboard (`Dashboard.tsx`, interface
`Cluster`): a name and the ids of the member projects. -/
structure Cluster where
  name : String
  projectIds : List String
deriving Repr, DecidableEq

/-- Result record of `kmeans`: `{ assignments, centroids }`. -/
structure KMeansResult where
  assignments : List Nat
  centroids : List (List ℚ)
deriving Repr, DecidableEq

/-- `squaredDistance` (`types.ts` lines 74 to 80): iterates over the indices
of `a`; an out-of-range read of `b` is modelled by the default `0` (in JS it
yields `NaN`; the two agree whenever `a.length <= b.length`, in particular on
the equal-dimension inputs the pipeline produces). -/
def squaredDistance (a b : List ℚ) : ℚ :=
  (List.range a.length).foldl (fun sum i => sum + (a.getD i 0 - b.getD i 0) ^ 2) 0

/-- Body of the `while` loop of `initializeCentroids` (`types.ts` lines 88 to
99): keep drawing random indices, skipping indices already used, until `k`
centroids are collected or every data point is used.  `fuel` bounds the number
of draws attempted; the pair returned is the centroid list together with the
next unread position of the random stream. -/
def initCentroidsLoop (data : List (List ℚ)) (k : Nat) (rng : Nat → Nat) :
    Nat → Nat → List (List ℚ) → List Nat → List (List ℚ) × Nat
  | 0, pos, centroids, _ => (centroids, pos)
  | fuel + 1, pos, centroids, used =>
    if centroids.length < k ∧ centroids.length < data.length then
      let index := rng pos % data.length
      if index ∈ used then
        initCentroidsLoop data k rng fuel (pos + 1) centroids used
      else
        initCentroidsLoop data k rng fuel (pos + 1)
          (centroids ++ [data.getD index []]) (index :: used)
    else (centroids, pos)

/-- `initializeCentroids` (`types.ts` lines 88 to 99). -/
def initializeCentroids (data : List (List ℚ)) (k : Nat) (rng : Nat → Nat)
    (pos : Nat) (fuel : Nat) : List (List ℚ) × Nat :=
  initCentroidsLoop data k rng fuel pos [] []

/-- Inner loop of the assignment step (`types.ts` lines 123 to 131): running
minimum distance (`none` models the initial `Infinity`), current best index
and current index `j`. -/
def closestAux (v : List ℚ) : List (List ℚ) → Nat → Option ℚ → Nat → Nat
  | [], _, _, best => best
  | c :: rest, j, minD, best =>
    match minD with
    | none => closestAux v rest (j + 1) (some (squaredDistance v c)) j
    | some m =>
      if squaredDistance v c < m then
        closestAux v rest (j + 1) (some (squaredDistance v c)) j
      else closestAux v rest (j + 1) minD best

/-- Index of the nearest centroid; `0` when the centroid list is empty,
exactly as the JS loop leaves `closestCentroid = 0`. -/
def closestCentroid (v : List ℚ) (centroids : List (List ℚ)) : Nat :=
  closestAux v centroids 0 none 0

/-- Assignment step (`types.ts` lines 122 to 136): each data point is
assigned to its nearest centroid; the new value does not depend on the old
assignment, which is only compared against to set the `changed` flag. -/
def assignStep (data : List (List ℚ)) (centroids : List (List ℚ)) : List Nat :=
  data.map fun v => closestCentroid v centroids

/-- `newCentroids[ci][d] += data[i][d]` for `d < data[i].length`
(`types.ts` lines 145 to 147): componentwise sum, keeping any tail of the
accumulator beyond the length of `v`. -/
def addInto (acc v : List ℚ) : List ℚ :=
  (List.range (max acc.length v.length)).map fun d =>
    if d < v.length then acc.getD d 0 + v.getD d 0 else acc.getD d 0

/-- One accumulation step of the centroid update (`types.ts` lines 142 to
148): add the vector into the sum of its cluster and bump the count. -/
def accumStep (acc : List (List ℚ) × List Nat) (p : List ℚ × Nat) :
    List (List ℚ) × List Nat :=
  (acc.1.set p.2 (addInto (acc.1.getD p.2 []) p.1),
   acc.2.set p.2 (acc.2.getD p.2 0 + 1))

/-- One step of the final loop of the centroid update (`types.ts` lines 150
to 159): a cluster with members becomes the componentwise mean of its sum, an
empty cluster is reseeded to a random data point, consuming one draw of the
random stream. -/
def divideOrReseed (data : List (List ℚ)) (rng : Nat → Nat)
    (sums : List (List ℚ)) (counts : List Nat)
    (acc : List (List ℚ) × Nat) (i : Nat) : List (List ℚ) × Nat :=
  if 0 < counts.getD i 0 then
    (acc.1 ++ [(sums.getD i []).map fun x => x / (counts.getD i 0 : ℚ)], acc.2)
  else (acc.1 ++ [data.getD (rng acc.2 % data.length) []], acc.2 + 1)

/-- Centroid update step (`types.ts` lines 139 to 160): sum the members of
each of the `k` clusters, then divide by the count, or, for an empty cluster,
reseed the centroid to a random data point (consuming draws of the random
stream in ascending cluster order). -/
def updateStep (data : List (List ℚ)) (k : Nat) (assignments : List Nat)
    (rng : Nat → Nat) (pos : Nat) : List (List ℚ) × Nat :=
  let dim := (data.getD 0 []).length
  let sc := (data.zip assignments).foldl accumStep
    (List.replicate k (List.replicate dim 0), List.replicate k 0)
  (List.range k).foldl (divideOrReseed data rng sc.1 sc.2) ([], pos)

/-- The iteration loop of `kmeans` (`types.ts` lines 118 to 161): up to
`maxIterations` passes, stopping early when an assignment pass changes
nothing; the centroid update runs once more after the final assignment pass,
exactly as in the source. -/
def kmeansLoop (data : List (List ℚ)) (k : Nat) (rng : Nat → Nat) :
    Nat → Nat → List (List ℚ) → List Nat → KMeansResult
  | 0, _, centroids, assignments => ⟨assignments, centroids⟩
  | iters + 1, pos, centroids, assignments =>
    let newAssignments := assignStep data centroids
    let up := updateStep data k newAssignments rng pos
    if newAssignments ≠ assignments then
      kmeansLoop data k rng iters up.2 up.1 newAssignments
    else ⟨newAssignments, up.1⟩

/-- `kmeans` (`types.ts` lines 108 to 164).  `fuel` bounds the number of
random draws the initialization loop may attempt; `maxIterations` is the
parameter the source defaults to `50`. -/
def kmeans (data : List (List ℚ)) (k : Nat) (rng : Nat → Nat) (fuel : Nat)
    (maxIterations : Nat) : KMeansResult :=
  if data.length = 0 ∨ k = 0 then ⟨[], []⟩
  else
    kmeansLoop data k rng maxIterations
      (initializeCentroids data k rng 0 fuel).2
      (initializeCentroids data k rng 0 fuel).1
      (List.replicate data.length 0)

/-- The whitespace test of the JS `String.prototype.trim` on the characters
occurring in this development. -/
def jsWhitespace (c : Char) : Bool :=
  c == ' ' || c == '\t' || c == '\n' || c == '\r'

/-- Model of the JS `.trim()`: strip whitespace from both ends. -/
def jsTrim (s : String) : String :=
  String.mk (((s.data.dropWhile jsWhitespace).reverse.dropWhile jsWhitespace).reverse)

/-- Model of `.replace(/"/g, "")` in `generateClusterName`
(`geminiService.ts` line 484): remove every double-quote character. -/
def stripQuotes (s : String) : String :=
  String.mk (s.data.filter fun c => c != '\"')

/-- The prompt string `generateClusterName` sends to the model
(`geminiService.ts` line 479): it samples the first five member texts. -/
def clusterNamePrompt (projectPrompts : List String) : String :=
  "I have a cluster of project descriptions. Based on these descriptions, please generate a short, descriptive, and catchy title for the cluster (3-5 words max). Here are the project descriptions:\n\n- "
    ++ String.intercalate "\n- " (projectPrompts.take 5)
    ++ "\n\nRespond with only the title."

/-- `generateClusterName` (`geminiService.ts` lines 476 to 489).  The Gemini
call is the oracle `api`; on success the response text is trimmed and has its
double quotes removed, and any failure is caught and rethrown as the fixed
message below. -/
def generateClusterName (api : String → Except String String)
    (projectPrompts : List String) : Except String String :=
  match api (clusterNamePrompt projectPrompts) with
  | Except.ok text => Except.ok (stripQuotes (jsTrim text))
  | Except.error _ => Except.error "Failed to generate a name for the cluster."

/-- `embedContentBatch` (`geminiService.ts` lines 451 to 469).  The batch
embedding call is the oracle `api`; any failure is caught and rethrown as the
fixed message below. -/
def embedContentBatch (api : List String → Except String (List (List ℚ)))
    (texts : List String) : Except String (List (List ℚ)) :=
  match api texts with
  | Except.ok embeddings => Except.ok embeddings
  | Except.error _ => Except.error "Failed to generate embeddings."

/-- The eligibility test of the pipeline (`Dashboard.tsx` line 188):
`p.prompts.text || p.prompts.image || p.prompts.tts`, i.e. at least one of
the text, image and tts prompts is a non-empty string.  The title and the
video prompt are not consulted. -/
def projectHasPrompts (p : Project) : Bool :=
  p.prompts.text != "" || p.prompts.image != "" || p.prompts.tts != ""

/-- `projects.filter(p => p.prompts.text || p.prompts.image || p.prompts.tts)`
(`Dashboard.tsx` line 188). -/
def eligibleProjects (projects : List Project) : List Project :=
  projects.filter projectHasPrompts

/-- The composite text embedded for a project (`Dashboard.tsx` line 191):
the template `title. text image tts` followed by `.trim()`. -/
def embedText (p : Project) : String :=
  jsTrim (p.title ++ ". " ++ p.prompts.text ++ " " ++ p.prompts.image ++ " "
    ++ p.prompts.tts)

/-- The bucket extraction of `Dashboard.tsx` lines 203 to 205:
`assignments.map((a, index) => a === i ? index : -1).filter(i => i !== -1)`,
i.e. the list of data indices assigned to cluster `i`, in ascending order.
`offset` is the index of the first element of `assignments` in the original
array. -/
def indicesWithAssignment (assignments : List Nat) (i : Nat) (offset : Nat) :
    List Nat :=
  match assignments with
  | [] => []
  | a :: rest =>
    (if a = i then [offset] else []) ++ indicesWithAssignment rest i (offset + 1)

/-- The naming text of a member project (`Dashboard.tsx` lines 209 to 212):
`projects.find(p => p.id === id)` followed by the template
`title. textPrompt` and `.trim()`; a missing project yields the JS string
interpolation of `undefined`. -/
def namingText (projects : List Project) (id : String) : String :=
  match projects.find? (fun pr => pr.id == id) with
  | some pr => jsTrim (pr.title ++ ". " ++ pr.prompts.text)
  | none => jsTrim ("undefined" ++ ". " ++ "undefined")

/-- The cluster-building loop of `Dashboard.tsx` lines 201 to 218, iterating
over the bucket indices remaining in `todo`: an empty bucket is skipped, a
non-empty bucket is named (awaiting the naming call before moving on, so a
naming error aborts the loop) and pushed. -/
def clustersLoop (projects : List Project) (api : String → Except String String)
    (ids : List String) (assignments : List Nat) :
    List Nat → Except String (List Cluster)
  | [] => Except.ok []
  | i :: todo =>
    let projectIndices := indicesWithAssignment assignments i 0
    if projectIndices = [] then clustersLoop projects api ids assignments todo
    else
      let memberIds := projectIndices.map fun idx => ids.getD idx ""
      match generateClusterName api (memberIds.map (namingText projects)) with
      | Except.error e => Except.error e
      | Except.ok nm =>
        match clustersLoop projects api ids assignments todo with
        | Except.error e => Except.error e
        | Except.ok rest => Except.ok ({ name := nm, projectIds := memberIds } :: rest)

/-- The `promptsToEmbed` constant of `handleClusterProjects`
(`Dashboard.tsx` lines 189 to 192): id and composite text of each eligible
project. -/
def promptsToEmbed (projects : List Project) : List (String × String) :=
  (eligibleProjects projects).map fun p => (p.id, embedText p)

/-- The `data` constant of `handleClusterProjects` (`Dashboard.tsx` line
196): each eligible project id paired with `embeddings[i]` (an out-of-range
read, impossible when the provider honours its one-vector-per-text contract,
is modelled by the empty vector). -/
def pipelineData (projects : List Project) (embeddings : List (List ℚ)) :
    List (String × List ℚ) :=
  (promptsToEmbed projects).enum.map fun q => (q.2.1, embeddings.getD q.1 [])

/-- The `numClusters` constant of `handleClusterProjects` (`Dashboard.tsx`
line 198): up to three clusters. -/
def numClusters (projects : List Project) : Nat :=
  min (eligibleProjects projects).length 3

/-- `handleClusterProjects` (`Dashboard.tsx` lines 178 to 225), with the
React state writes projected away: `setClusters(cs)` becomes `Except.ok cs`
and `setClusteringError(msg)` becomes `Except.error msg` (both the early
too-few-projects return and the `catch` block).  `embedApi` and `nameApi`
are the two Gemini oracles, `rng` and `fuel` the random stream of the run. -/
def handleClusterProjects (projects : List Project)
    (embedApi : List String → Except String (List (List ℚ)))
    (nameApi : String → Except String String)
    (rng : Nat → Nat) (fuel : Nat) : Except String (List Cluster) :=
  if projects.length < 2 then
    Except.error "You need at least two projects to create clusters."
  else
    match embedContentBatch embedApi ((promptsToEmbed projects).map fun p => p.2) with
    | Except.error e => Except.error e
    | Except.ok embeddings =>
      clustersLoop projects nameApi
        ((pipelineData projects embeddings).map fun d => d.1)
        (kmeans ((pipelineData projects embeddings).map fun d => d.2)
          (numClusters projects) rng fuel 50).assignments
        (List.range (numClusters projects))

/-! ### The separation example -/

/-- The data set of the separation property: two points at the origin, two
points at `(10, 10)`. -/
def dataSep : List (List ℚ) := [[0, 0], [0, 0], [10, 10], [10, 10]]

/-- An assignment list over `dataSep` is a separating partition when the two
near-origin points share one cluster, the two near-`(10, 10)` points share
one cluster, and the two clusters differ. -/
def separatedPartition (as : List Nat) : Prop :=
  as.getD 0 0 = as.getD 1 0 ∧ as.getD 2 0 = as.getD 3 0 ∧
    as.getD 0 0 ≠ as.getD 2 0


/-! ### Pipeline fixtures and spec-side definitions -/

/-- Modelled from the spec: eligibility as the spec words it.  Sections 3 and
4.2 describe a project by its derived text blob, the concatenation of the
title and the prompt fields, and select projects with at least one non-empty
descriptive text field; under that reading the title and all four prompt
fields count. -/
def specEligible (p : Project) : Bool :=
  p.title != "" || p.prompts.text != "" || p.prompts.image != "" ||
    p.prompts.tts != "" || p.prompts.video != ""

/-- A project with no prompts at all (ineligible under both readings). -/
def projNoPrompts : Project := ⟨"a", "A", ⟨"", "", "", ""⟩⟩

/-- A project with only a text prompt. -/
def projRocket : Project := ⟨"b", "B", ⟨"rocket", "", "", ""⟩⟩

/-- A project whose only non-empty prompt field is the video prompt. -/
def projVideoOnly : Project := ⟨"v1", "Space film", ⟨"", "", "", "a rocket launch"⟩⟩

/-- An eligible project used in the naming-failure runs. -/
def projAlpha : Project := ⟨"p1", "Alpha", ⟨"stars", "", "", ""⟩⟩

/-- A second eligible project used in the naming-failure runs. -/
def projBeta : Project := ⟨"p2", "Beta", ⟨"planets", "", "", ""⟩⟩

/-- An embedding oracle that returns one fixed vector per input text. -/
def stubEmbed : List String → Except String (List (List ℚ)) :=
  fun ts => Except.ok (ts.map fun _ => [0])

/-- A naming oracle that always succeeds with a fixed name. -/
def stubName : String → Except String String := fun _ => Except.ok "Name"

/-! ### Output invariants of a successful pipeline run (C9) -/

/-- The member ids of bucket `i`: the ids of the data indices assigned to
cluster `i`, exactly as `clustersLoop` builds them. -/
def bucketIds (ids : List String) (as : List Nat) (i : Nat) : List String :=
  (indicesWithAssignment as i 0).map fun idx => ids.getD idx ""

/-- The cluster emitted for bucket `i` in a successful run: nothing for an
empty bucket, otherwise its name (whatever the naming provider returned)
with the member ids of the bucket. -/
def clusterAt (names : Nat → String) (ids : List String) (as : List Nat)
    (i : Nat) : Option Cluster :=
  if indicesWithAssignment as i 0 = [] then none
  else some ⟨names i, bucketIds ids as i⟩

/-- The output contract of a successful run: no emitted cluster is empty;
the member ids of the emitted clusters are, as a multiset, exactly the
eligible project ids (each eligible project lands in exactly one cluster);
and the cluster list is the ascending-bucket-index traversal of the buckets
of some in-range assignment, empty buckets silently dropped. -/
def pipelineOutputOK (projects : List Project) (cs : List Cluster) : Prop :=
  (∀ c ∈ cs, c.projectIds ≠ []) ∧
    ((cs.map fun c => c.projectIds).flatten).Perm
      ((eligibleProjects projects).map fun p => p.id) ∧
    ∃ (as : List Nat) (names : Nat → String),
      as.length = (eligibleProjects projects).length ∧
      (∀ a ∈ as, a < min (eligibleProjects projects).length 3) ∧
      cs = (List.range (min (eligibleProjects projects).length 3)).filterMap
        (clusterAt names ((eligibleProjects projects).map fun p => p.id) as)

/-! ### Structural invariants of the engine -/

theorem closestAux_lt (v : List ℚ) (cs : List (List ℚ)) :
    ∀ (j : Nat) (minD : Option ℚ) (best : Nat),
    closestAux v cs j minD best < max (best + 1) (j + cs.length) := by
  induction cs with
  | nil => intro j minD best; cases minD <;> simp [closestAux]
  | cons c rest ih =>
    intro j minD best
    cases minD with
    | none =>
      have h := ih (j + 1) (some (squaredDistance v c)) j
      simp only [closestAux, List.length_cons]
      omega
    | some m =>
      simp only [closestAux, List.length_cons]
      by_cases hd : squaredDistance v c < m
      · rw [if_pos hd]
        have h := ih (j + 1) (some (squaredDistance v c)) j
        omega
      · rw [if_neg hd]
        have h := ih (j + 1) (some m) best
        omega

theorem closestCentroid_lt (v : List ℚ) (cs : List (List ℚ)) (k : Nat)
    (hcs : cs.length ≤ k) (hk : 1 ≤ k) : closestCentroid v cs < k := by
  have h := closestAux_lt v cs 0 none 0
  unfold closestCentroid
  omega

theorem assignStep_length (data cs : List (List ℚ)) :
    (assignStep data cs).length = data.length :=
  List.length_map data _

theorem assignStep_lt (data cs : List (List ℚ)) (k : Nat)
    (hcs : cs.length ≤ k) (hk : 1 ≤ k) :
    ∀ x ∈ assignStep data cs, x < k := by
  intro x hx
  obtain ⟨v, _, rfl⟩ := List.mem_map.mp hx
  exact closestCentroid_lt v cs k hcs hk

theorem initCentroidsLoop_length (data : List (List ℚ)) (k : Nat)
    (rng : Nat → Nat) :
    ∀ (fuel pos : Nat) (cs : List (List ℚ)) (used : List Nat),
    (initCentroidsLoop data k rng fuel pos cs used).1.length ≤
      max cs.length (min k data.length) := by
  intro fuel
  induction fuel with
  | zero => intro pos cs used; simp [initCentroidsLoop]
  | succ n ih =>
    intro pos cs used
    simp only [initCentroidsLoop]
    by_cases h : cs.length < k ∧ cs.length < data.length
    · rw [if_pos h]
      by_cases hmem : rng pos % data.length ∈ used
      · rw [if_pos hmem]
        have := ih (pos + 1) cs used
        omega
      · rw [if_neg hmem]
        have := ih (pos + 1) (cs ++ [data.getD (rng pos % data.length) []])
          ((rng pos % data.length) :: used)
        simp only [List.length_append, List.length_singleton] at this
        omega
    · rw [if_neg h]
      simp

theorem divideOrReseed_foldl_length (data : List (List ℚ)) (rng : Nat → Nat)
    (sums : List (List ℚ)) (counts : List Nat) :
    ∀ (L : List Nat) (acc : List (List ℚ) × Nat),
    ((L.foldl (divideOrReseed data rng sums counts) acc).1).length =
      acc.1.length + L.length := by
  intro L
  induction L with
  | nil => intro acc; simp
  | cons i rest ih =>
    intro acc
    have hstep : ((divideOrReseed data rng sums counts acc i).1).length =
        acc.1.length + 1 := by
      unfold divideOrReseed
      split <;> simp
    simp only [List.foldl_cons, ih, hstep, List.length_cons]
    omega

theorem updateStep_length (data : List (List ℚ)) (k : Nat)
    (assignments : List Nat) (rng : Nat → Nat) (pos : Nat) :
    ((updateStep data k assignments rng pos).1).length = k := by
  unfold updateStep
  rw [divideOrReseed_foldl_length]
  simp

theorem kmeansLoop_inv (data : List (List ℚ)) (k : Nat) (rng : Nat → Nat)
    (hk : 1 ≤ k) :
    ∀ (iters pos : Nat) (cs : List (List ℚ)) (as : List Nat),
    as.length = data.length → (∀ x ∈ as, x < k) → cs.length ≤ k →
    (kmeansLoop data k rng iters pos cs as).assignments.length = data.length ∧
      ∀ x ∈ (kmeansLoop data k rng iters pos cs as).assignments, x < k := by
  intro iters
  induction iters with
  | zero =>
    intro pos cs as hlen hbnd _
    exact ⟨hlen, hbnd⟩
  | succ n ih =>
    intro pos cs as _ _ hcs
    simp only [kmeansLoop]
    split
    · exact ih _ _ _ (assignStep_length data cs) (assignStep_lt data cs k hcs hk)
        (le_of_eq (updateStep_length data k (assignStep data cs) rng pos))
    · exact ⟨assignStep_length data cs, assignStep_lt data cs k hcs hk⟩

/-- Shared structural invariant: on a non-empty data set with a positive
cluster count, `kmeans` returns one assignment per data point, each in
`[0, k)`, whatever the random stream, fuel and iteration budget. -/
theorem kmeans_inv (data : List (List ℚ)) (k : Nat) (rng : Nat → Nat)
    (fuel mi : Nat) (hd : data ≠ []) (hk : 1 ≤ k) :
    (kmeans data k rng fuel mi).assignments.length = data.length ∧
      ∀ x ∈ (kmeans data k rng fuel mi).assignments, x < k := by
  unfold kmeans
  rw [if_neg (by simp [List.length_eq_zero, hd]; omega)]
  apply kmeansLoop_inv data k rng hk
  · exact List.length_replicate data.length 0
  · intro x hx
    rw [List.eq_of_mem_replicate hx]
    omega
  · have h := initCentroidsLoop_length data k rng fuel 0 [] []
    simp only [initializeCentroids]
    simp at h
    omega

/-! ### Degenerate input: all data points identical -/

theorem getD_replicate_of_lt {α : Type} (n i : Nat) (a d : α) (h : i < n) :
    (List.replicate n a).getD i d = a := by
  rw [List.getD_eq_getElem (List.replicate n a) d (by simpa using h)]
  simp

theorem squaredDistance_self (v : List ℚ) : squaredDistance v v = 0 := by
  unfold squaredDistance
  generalize List.range v.length = l
  induction l with
  | nil => rfl
  | cons i rest ih => simp only [List.foldl_cons, sub_self, zero_pow, add_zero, ih]; norm_num

theorem initCentroidsLoop_all_eq (v : List ℚ) (n k : Nat) (rng : Nat → Nat) :
    ∀ (fuel pos : Nat) (cs : List (List ℚ)) (used : List Nat),
    (∀ c ∈ cs, c = v) →
    ∀ c ∈ (initCentroidsLoop (List.replicate n v) k rng fuel pos cs used).1,
      c = v := by
  intro fuel
  induction fuel with
  | zero => intro pos cs used hcs; simp only [initCentroidsLoop]; exact hcs
  | succ m ih =>
    intro pos cs used hcs
    simp only [initCentroidsLoop]
    by_cases h : cs.length < k ∧ cs.length < (List.replicate n v).length
    · rw [if_pos h]
      by_cases hmem : rng pos % (List.replicate n v).length ∈ used
      · rw [if_pos hmem]
        exact ih (pos + 1) cs used hcs
      · rw [if_neg hmem]
        apply ih (pos + 1) _ _
        intro c hc
        rcases List.mem_append.mp hc with hc | hc
        · exact hcs c hc
        · rw [List.mem_singleton.mp hc]
          have hn : 0 < n := by
            have := h.2
            simpa using Nat.pos_of_ne_zero (by intro h0; simp [h0] at this)
          exact getD_replicate_of_lt n _ v []
            (by simpa using Nat.mod_lt _ (by simpa using hn))
    · rw [if_neg h]
      simpa using hcs

theorem closestAux_of_not_lt (v : List ℚ) (cs : List (List ℚ)) :
    ∀ (j b : Nat) (m : ℚ), (∀ c ∈ cs, ¬ squaredDistance v c < m) →
    closestAux v cs j (some m) b = b := by
  induction cs with
  | nil => intro j b m _; rfl
  | cons c rest ih =>
    intro j b m h
    simp only [closestAux]
    rw [if_neg (h c (List.mem_cons_self c rest))]
    exact ih (j + 1) b m fun c' hc' => h c' (List.mem_cons_of_mem c hc')

theorem closestCentroid_of_all_self (v : List ℚ) (cs : List (List ℚ))
    (h : ∀ c ∈ cs, c = v) : closestCentroid v cs = 0 := by
  cases cs with
  | nil => rfl
  | cons c rest =>
    unfold closestCentroid
    simp only [closestAux]
    rw [h c (List.mem_cons_self c rest), squaredDistance_self]
    apply closestAux_of_not_lt
    intro c' hc'
    rw [h c' (List.mem_cons_of_mem c hc'), squaredDistance_self]
    exact lt_irrefl 0

theorem assignStep_replicate (v : List ℚ) (n : Nat) (cs : List (List ℚ))
    (h : ∀ c ∈ cs, c = v) :
    assignStep (List.replicate n v) cs = List.replicate n 0 := by
  unfold assignStep
  rw [List.map_replicate, closestCentroid_of_all_self v cs h]

theorem kmeansLoop_replicate (v : List ℚ) (n k : Nat) (rng : Nat → Nat)
    (iters pos : Nat) (cs : List (List ℚ)) (h : ∀ c ∈ cs, c = v) :
    (kmeansLoop (List.replicate n v) k rng iters pos cs
      (List.replicate n 0)).assignments = List.replicate n 0 := by
  cases iters with
  | zero => rfl
  | succ m =>
    simp only [kmeansLoop]
    rw [assignStep_replicate v n cs h]
    simp

theorem kmeansLoop_centroids_length (data : List (List ℚ)) (k : Nat)
    (rng : Nat → Nat) :
    ∀ (iters pos : Nat) (cs : List (List ℚ)) (as : List Nat),
    (cs.length = k ∨ 1 ≤ iters) →
    (kmeansLoop data k rng iters pos cs as).centroids.length = k := by
  intro iters
  induction iters with
  | zero =>
    intro pos cs as h
    rcases h with h | h
    · exact h
    · omega
  | succ n ih =>
    intro pos cs as _
    simp only [kmeansLoop]
    split
    · exact ih _ _ _ (Or.inl (updateStep_length data k (assignStep data cs) rng pos))
    · exact updateStep_length data k (assignStep data cs) rng pos

/-- After at least one iteration the engine carries exactly `k` centroids:
the update step always rebuilds a length-`k` centroid array, reseeding the
empty clusters, so no clamping survives past initialization. -/
theorem kmeans_centroids_length (data : List (List ℚ)) (k : Nat)
    (rng : Nat → Nat) (fuel mi : Nat) (hd : data ≠ []) (hk : 1 ≤ k)
    (hmi : 1 ≤ mi) : (kmeans data k rng fuel mi).centroids.length = k := by
  unfold kmeans
  rw [if_neg (by simp [List.length_eq_zero, hd]; omega)]
  exact kmeansLoop_centroids_length data k rng mi _ _ _ (Or.inr hmi)

theorem kmeansLoop_succ (data : List (List ℚ)) (k : Nat) (rng : Nat → Nat)
    (iters pos : Nat) (cs : List (List ℚ)) (as : List Nat) :
    kmeansLoop data k rng (iters + 1) pos cs as =
      if assignStep data cs ≠ as then
        kmeansLoop data k rng iters
          (updateStep data k (assignStep data cs) rng pos).2
          (updateStep data k (assignStep data cs) rng pos).1
          (assignStep data cs)
      else ⟨assignStep data cs,
        (updateStep data k (assignStep data cs) rng pos).1⟩ :=
  rfl

theorem kmeansLoop_sep_first (rng : Nat → Nat) (p : Nat) :
    kmeansLoop dataSep 2 rng 50 p [[0, 0], [10, 10]]
      (List.replicate dataSep.length 0) = ⟨[0, 0, 1, 1], [[0, 0], [10, 10]]⟩ := by
  have hA : assignStep dataSep [[0, 0], [10, 10]] = [0, 0, 1, 1] := rfl
  have hU : updateStep dataSep 2 [0, 0, 1, 1] rng p =
      ([[0, 0], [10, 10]], p) := rfl
  have hR : List.replicate dataSep.length (0 : Nat) = [0, 0, 0, 0] := rfl
  rw [hR]
  show kmeansLoop dataSep 2 rng (49 + 1) p [[0, 0], [10, 10]] [0, 0, 0, 0] = _
  rw [kmeansLoop_succ, hA, hU,
    if_pos (by decide : ([0, 0, 1, 1] : List Nat) ≠ [0, 0, 0, 0])]
  show kmeansLoop dataSep 2 rng (48 + 1) p [[0, 0], [10, 10]] [0, 0, 1, 1] = _
  rw [kmeansLoop_succ, hA, hU,
    if_neg (by decide : ¬ ([0, 0, 1, 1] : List Nat) ≠ [0, 0, 1, 1])]

theorem kmeansLoop_sep_second (rng : Nat → Nat) (p : Nat) :
    kmeansLoop dataSep 2 rng 50 p [[10, 10], [0, 0]]
      (List.replicate dataSep.length 0) = ⟨[1, 1, 0, 0], [[10, 10], [0, 0]]⟩ := by
  have hA : assignStep dataSep [[10, 10], [0, 0]] = [1, 1, 0, 0] := rfl
  have hU : updateStep dataSep 2 [1, 1, 0, 0] rng p =
      ([[10, 10], [0, 0]], p) := rfl
  have hR : List.replicate dataSep.length (0 : Nat) = [0, 0, 0, 0] := rfl
  rw [hR]
  show kmeansLoop dataSep 2 rng (49 + 1) p [[10, 10], [0, 0]] [0, 0, 0, 0] = _
  rw [kmeansLoop_succ, hA, hU,
    if_pos (by decide : ([1, 1, 0, 0] : List Nat) ≠ [0, 0, 0, 0])]
  show kmeansLoop dataSep 2 rng (48 + 1) p [[10, 10], [0, 0]] [1, 1, 0, 0] = _
  rw [kmeansLoop_succ, hA, hU,
    if_neg (by decide : ¬ ([1, 1, 0, 0] : List Nat) ≠ [1, 1, 0, 0])]

/-! ### Claims about the clustering engine -/

/-- Claim C3: for every cluster count `k >= 1` and every non-empty list of
equal-dimension vectors, `kmeans` returns one assignment per input vector,
each in `[0, k)`, for every random stream and fuel (in particular for streams
whose initialization or update steps produce empty clusters); the embedding
is total, so no crash or out-of-range index can occur. -/
theorem kmeans_assignments_wellformed (data : List (List ℚ))
    (dim k fuel mi : Nat) (rng : Nat → Nat) (hd : data ≠ []) (hk : 1 ≤ k)
    (_hdim : ∀ v ∈ data, v.length = dim) :
    (kmeans data k rng fuel mi).assignments.length = data.length ∧
      ∀ x ∈ (kmeans data k rng fuel mi).assignments, x < k :=
  kmeans_inv data k rng fuel mi hd hk

/-- Witness for C3 at `data = [[0], [1]]`, `k = 2`. -/
theorem kmeans_assignments_wellformed_witness :
    (kmeans [[0], [1]] 2 (fun t => t) 4 50).assignments.length = 2 ∧
      ∀ x ∈ (kmeans [[0], [1]] 2 (fun t => t) 4 50).assignments, x < 2 :=
  kmeans_assignments_wellformed [[0], [1]] 1 2 4 50 (fun t => t) (by decide)
    (by decide) (by decide)

/-- Claim C4, counterexample: on `dataSep` with `k = 2` there is a random
stream (one whose first two draws pick the two distinct indices holding the
origin point, a possible outcome of `Math.random`) for which the run
converges immediately to the single-cluster assignment `[0, 0, 0, 0]`: the
empty second cluster is reseeded but the loop has already stopped, so not
every seed separates the two point groups. -/
theorem kmeans_separation_counterexample :
    ¬ separatedPartition (kmeans dataSep 2 (fun t => t) 4 50).assignments := by
  have h : (kmeans dataSep 2 (fun t => t) 4 50).assignments = [0, 0, 0, 0] := rfl
  rw [h]
  intro hsep
  exact hsep.2.2 rfl

/-- Claim C4, amended: whenever initialization picks one origin point and one
`(10, 10)` point as the two starting centroids (in either order), the run on
`dataSep` with `k = 2` converges to the separating partition; a stream whose
first two distinct draws land on equal points instead yields one cluster
holding all four points. -/
theorem kmeans_separation_of_good_init (rng : Nat → Nat) (fuel : Nat)
    (h : (initializeCentroids dataSep 2 rng 0 fuel).1 = [[0, 0], [10, 10]] ∨
      (initializeCentroids dataSep 2 rng 0 fuel).1 = [[10, 10], [0, 0]]) :
    separatedPartition (kmeans dataSep 2 rng fuel 50).assignments := by
  unfold kmeans
  rw [if_neg (by decide)]
  rcases h with h | h <;> rw [h]
  · rw [kmeansLoop_sep_first rng _]
    exact ⟨rfl, rfl, by decide⟩
  · rw [kmeansLoop_sep_second rng _]
    exact ⟨rfl, rfl, by decide⟩

/-- Witness for the amended C4: the stream drawing indices `0` then `2`. -/
theorem kmeans_separation_of_good_init_witness :
    separatedPartition (kmeans dataSep 2 (fun t => 2 * t) 4 50).assignments :=
  kmeans_separation_of_good_init (fun t => 2 * t) 4 (Or.inl rfl)

/-- Claim C5, counterexample: the engine reads the ambient `Math.random`
stream (it exposes no seed parameter), and its output depends on the drawn
values — two runs on identical input observing different ambient draws
return different assignments, so repeated runs are not reproducible. -/
theorem kmeans_stream_dependence :
    (kmeans dataSep 2 (fun t => t) 4 50).assignments ≠
      (kmeans dataSep 2 (fun t => 2 * t) 4 50).assignments := by
  decide

/-- Claim C5, amended: the engine output is a function of the input and the
observed random draws alone — two runs of the same input that read identical
values from the random stream return identical assignments and centroids. -/
theorem kmeans_deterministic_in_draws (data : List (List ℚ))
    (k fuel mi : Nat) (rng1 rng2 : Nat → Nat) (h : ∀ t, rng1 t = rng2 t) :
    kmeans data k rng1 fuel mi = kmeans data k rng2 fuel mi := by
  rw [funext h]

/-- Witness for the amended C5. -/
theorem kmeans_deterministic_in_draws_witness :
    kmeans [[0], [1]] 2 (fun t => t) 4 50 =
      kmeans [[0], [1]] 2 (fun t => t + 0) 4 50 :=
  kmeans_deterministic_in_draws [[0], [1]] 2 4 50 _ _ (fun _ => rfl)

/-- Claim C6, counterexample: `kmeans` never signals `InvalidK`: called with
`k = 0` (the `k < 1` case) on well-formed non-empty data it returns the
empty result normally instead of failing — the source has no failure channel
at all (the embedding is a total function), so neither `InvalidK` nor
`DimensionMismatch` is ever raised. -/
theorem kmeans_no_invalidK_failure :
    kmeans [[0], [1]] 0 (fun t => t) 4 50 = ⟨[], []⟩ := rfl

/-- Claim C6, amended: `kmeans` performs no input validation and never
fails: empty data or `k = 0` yield the empty result, and on well-formed
input it always returns normally; fully degenerate input (all vectors
identical) collapses to a single effective cluster — every point is assigned
to cluster `0`, for every random stream. -/
theorem kmeans_identical_vectors_collapse (v : List ℚ) (n k fuel mi : Nat)
    (rng : Nat → Nat) (hn : 0 < n) (hk : 0 < k) :
    (kmeans (List.replicate n v) k rng fuel mi).assignments =
      List.replicate n 0 := by
  unfold kmeans
  rw [if_neg (by rw [List.length_replicate]; omega)]
  rw [List.length_replicate]
  exact kmeansLoop_replicate v n k rng mi _ _
    (initCentroidsLoop_all_eq v n k rng fuel 0 [] [] (by simp))

/-- Witness for the amended C6: two identical one-dimensional points,
`k = 2`. -/
theorem kmeans_identical_vectors_collapse_witness :
    (kmeans (List.replicate 2 [(1 : ℚ)]) 2 (fun t => t) 4 50).assignments =
      List.replicate 2 0 :=
  kmeans_identical_vectors_collapse [(1 : ℚ)] 2 2 4 50 (fun t => t)
    (by decide) (by decide)

/-- Claim C7, counterexample: with `k = 3` and only two (distinct) input
vectors, initialization is clamped to two centroids but the first update
step rebuilds a length-`3` centroid array, reseeding the empty cluster, so
the engine returns three centroids — not the clamped count `min 3 2 = 2`. -/
theorem kmeans_returns_unclamped_centroids :
    (kmeans [[0], [1]] 3 (fun t => t) 4 50).centroids.length ≠
      min 3 [[(0 : ℚ)], [1]].length := by
  decide

/-- Claim C7, amended: initialization clamps the number of starting
centroids to `min k (number of data points)`, but the clamping does not
survive: once at least one iteration runs, the update step rebuilds a
length-`k` centroid array (reseeding empty clusters from random data
points), so the engine returns `k` centroids rather than the clamped
count. -/
theorem kmeans_clamp_only_at_init (data : List (List ℚ))
    (k pos fuel mi : Nat) (rng : Nat → Nat) (hd : data ≠ []) (hk : 1 ≤ k)
    (hmi : 1 ≤ mi) :
    (initializeCentroids data k rng pos fuel).1.length ≤ min k data.length ∧
      (kmeans data k rng fuel mi).centroids.length = k := by
  constructor
  · have h := initCentroidsLoop_length data k rng fuel pos [] []
    simpa [initializeCentroids] using h
  · exact kmeans_centroids_length data k rng fuel mi hd hk hmi

/-- Witness for the amended C7 at `data = [[0], [1]]`, `k = 3`. -/
theorem kmeans_clamp_only_at_init_witness :
    (initializeCentroids [[0], [1]] 3 (fun t => t) 0 4).1.length ≤
        min 3 [[(0 : ℚ)], [1]].length ∧
      (kmeans [[0], [1]] 3 (fun t => t) 4 50).centroids.length = 3 :=
  kmeans_clamp_only_at_init [[0], [1]] 3 0 4 50 (fun t => t) (by decide)
    (by decide) (by decide)

/-- Claim C10: called with an empty data array or with `k = 0`, `kmeans`
returns `{ assignments: [], centroids: [] }` without signaling any error
(the guard on line 109 returns the empty result normally), so with non-empty
data and `k = 0` the caller receives an assignments array of length zero
rather than one of the input length. -/
theorem kmeans_empty_guard (data : List (List ℚ)) (k fuel mi : Nat)
    (rng : Nat → Nat) :
    kmeans data 0 rng fuel mi = ⟨[], []⟩ ∧ kmeans [] k rng fuel mi = ⟨[], []⟩ ∧
      (data ≠ [] →
        (kmeans data 0 rng fuel mi).assignments.length ≠ data.length) := by
  refine ⟨by simp [kmeans], by simp [kmeans], fun hd hc => ?_⟩
  have h1 : kmeans data 0 rng fuel mi = ⟨[], []⟩ := by simp [kmeans]
  rw [h1] at hc
  simp only [List.length_nil] at hc
  exact hd (List.length_eq_zero.mp hc.symm)

/-- Witness for C10 at `data = [[0]]`, `k = 0`. -/
theorem kmeans_empty_guard_witness :
    kmeans [[(0 : ℚ)]] 0 (fun t => t) 4 50 = ⟨[], []⟩ ∧
      (kmeans [[(0 : ℚ)]] 0 (fun t => t) 4 50).assignments.length ≠
        [[(0 : ℚ)]].length :=
  ⟨(kmeans_empty_guard [[(0 : ℚ)]] 7 4 50 (fun t => t)).1,
    (kmeans_empty_guard [[(0 : ℚ)]] 7 4 50 (fun t => t)).2.2 (by decide)⟩

/-! ### Claims about eligibility filtering (C8) -/

/-- Claim C8, counterexample: a project whose title and video prompt are
non-empty, but whose text, image and tts prompts are empty, has non-empty
descriptive text fields under the words of the spec, yet the code does not
select it — the filter consults only the text, image and tts prompts. -/
theorem eligibility_ignores_video_prompt :
    specEligible projVideoOnly = true ∧ projectHasPrompts projVideoOnly = false ∧
      eligibleProjects [projVideoOnly, projRocket] = [projRocket] :=
  ⟨rfl, rfl, rfl⟩

/-- Claim C8, amended: a project is selected as eligible exactly when at
least one of its text, image or tts prompt fields is non-empty — the title
and the video prompt are not consulted — and the filtered list preserves the
original relative order (it is a sublist of the input). -/
theorem eligibleProjects_characterization (ps : List Project) :
    (∀ p, p ∈ eligibleProjects ps ↔ p ∈ ps ∧
      (p.prompts.text ≠ "" ∨ p.prompts.image ≠ "" ∨ p.prompts.tts ≠ "")) ∧
      (eligibleProjects ps).Sublist ps := by
  refine ⟨fun p => ?_, List.filter_sublist ps⟩
  simp [eligibleProjects, List.mem_filter, projectHasPrompts, or_assoc]

/-! ### Claims about the insufficient-data guard (C2) -/

/-- Claim C2, counterexample: with two projects in total of which exactly
one is eligible, the pipeline does not fail with the insufficient-data
error: the only guard tests the total project count, so the run proceeds,
invokes the clustering engine on the single eligible vector and returns a
singleton cluster. -/
theorem pipeline_single_eligible_proceeds :
    (eligibleProjects [projNoPrompts, projRocket]).length = 1 ∧
      handleClusterProjects [projNoPrompts, projRocket] stubEmbed stubName
        (fun t => t) 4 = Except.ok [⟨"Name", ["b"]⟩] :=
  ⟨rfl, rfl⟩

/-- Claim C2, amended: the guard tests the total project count, not the
eligible count: with fewer than two projects in total the pipeline fails
with the insufficient-projects message before any other work, while with two
or more total projects it proceeds even when fewer than two are eligible. -/
theorem pipeline_total_count_guard (ps : List Project)
    (embedApi : List String → Except String (List (List ℚ)))
    (nameApi : String → Except String String) (rng : Nat → Nat) (fuel : Nat)
    (h : ps.length < 2) :
    handleClusterProjects ps embedApi nameApi rng fuel =
      Except.error "You need at least two projects to create clusters." := by
  unfold handleClusterProjects
  rw [if_pos h]

/-- Witness for the amended C2 at a single-project input. -/
theorem pipeline_total_count_guard_witness :
    handleClusterProjects [projNoPrompts] stubEmbed stubName (fun t => t) 4 =
      Except.error "You need at least two projects to create clusters." :=
  pipeline_total_count_guard [projNoPrompts] stubEmbed stubName (fun t => t) 4
    (by decide)

/-! ### Claims about naming failures (C1) -/

theorem clustersLoop_cons (projects : List Project)
    (api : String → Except String String) (ids : List String)
    (as : List Nat) (i : Nat) (todo : List Nat) :
    clustersLoop projects api ids as (i :: todo) =
      if indicesWithAssignment as i 0 = [] then
        clustersLoop projects api ids as todo
      else
        match generateClusterName api
            (((indicesWithAssignment as i 0).map fun idx => ids.getD idx "").map
              (namingText projects)) with
        | Except.error e => Except.error e
        | Except.ok nm =>
          match clustersLoop projects api ids as todo with
          | Except.error e => Except.error e
          | Except.ok rest =>
            Except.ok ((⟨nm,
              (indicesWithAssignment as i 0).map fun idx => ids.getD idx ""⟩ :
                Cluster) :: rest) :=
  rfl

/-- Claim C1, counterexample: when the per-bucket naming call fails, the
bucket does not receive a placeholder name: the rethrown naming error
escapes the cluster loop and the whole pipeline run fails with the fixed
naming-failure message — a naming failure IS surfaced as a run-level
failure, and no cluster list is produced. -/
theorem pipeline_naming_failure_aborts :
    handleClusterProjects [projAlpha, projBeta] stubEmbed
      (fun _ => Except.error "api down") (fun t => t) 4 =
      Except.error "Failed to generate a name for the cluster." := rfl

/-- Claim C1, amended: a failing naming provider aborts the entire run: for
every naming oracle that fails (with any error values), the pipeline on two
eligible projects returns the run-level naming-failure error instead of
clusters with placeholder names. -/
theorem pipeline_naming_failure_aborts_general
    (api : String → Except String String) (e : String → String)
    (h : ∀ s, api s = Except.error (e s)) :
    handleClusterProjects [projAlpha, projBeta] stubEmbed api (fun t => t) 4 =
      Except.error "Failed to generate a name for the cluster." := by
  have hgen : ∀ ts, generateClusterName api ts =
      Except.error "Failed to generate a name for the cluster." := by
    intro ts
    unfold generateClusterName
    rw [h (clusterNamePrompt ts)]
  have h1 : handleClusterProjects [projAlpha, projBeta] stubEmbed api
      (fun t => t) 4 =
      clustersLoop [projAlpha, projBeta] api ["p1", "p2"] [0, 0]
        (List.range 2) := rfl
  rw [h1, show (List.range 2 : List Nat) = [0, 1] from rfl, clustersLoop_cons,
    if_neg (by decide : ¬ indicesWithAssignment [0, 0] 0 0 = []), hgen]

/-- Witness for the amended C1: a concrete always-failing naming oracle. -/
theorem pipeline_naming_failure_aborts_general_witness :
    handleClusterProjects [projAlpha, projBeta] stubEmbed
      (fun _ => Except.error "down") (fun t => t) 4 =
      Except.error "Failed to generate a name for the cluster." :=
  pipeline_naming_failure_aborts_general (fun _ => Except.error "down")
    (fun _ => "down") (fun _ => rfl)

theorem clustersLoop_ok_characterization (projects : List Project)
    (api : String → Except String String) (ids : List String) (as : List Nat) :
    ∀ (L : List Nat), L.Nodup → ∀ cs,
    clustersLoop projects api ids as L = Except.ok cs →
    ∃ names : Nat → String, cs = L.filterMap (clusterAt names ids as) := by
  intro L
  induction L with
  | nil =>
    intro _ cs h
    have h' : Except.ok ([] : List Cluster) = Except.ok cs := h
    refine ⟨fun _ => "", ?_⟩
    rw [← Except.ok.inj h']
    rfl
  | cons i todo ih =>
    intro hnodup cs h
    rw [clustersLoop_cons] at h
    by_cases hb : indicesWithAssignment as i 0 = []
    · rw [if_pos hb] at h
      obtain ⟨names, hcs⟩ := ih hnodup.of_cons cs h
      refine ⟨names, ?_⟩
      have hnone : clusterAt names ids as i = none := by
        unfold clusterAt
        rw [if_pos hb]
      simp only [List.filterMap_cons, hnone, hcs]
    · rw [if_neg hb] at h
      cases hg : generateClusterName api
          (((indicesWithAssignment as i 0).map fun idx => ids.getD idx "").map
            (namingText projects)) with
      | error e => rw [hg] at h; exact Except.noConfusion h
      | ok nm =>
        rw [hg] at h
        cases hr : clustersLoop projects api ids as todo with
        | error e => rw [hr] at h; exact Except.noConfusion h
        | ok rest =>
          rw [hr] at h
          have h' : Except.ok
              ((⟨nm, (indicesWithAssignment as i 0).map fun idx => ids.getD idx ""⟩ :
                Cluster) :: rest) = Except.ok cs := h
          obtain ⟨names', hrest⟩ := ih hnodup.of_cons rest hr
          refine ⟨fun j => if j = i then nm else names' j, ?_⟩
          have hsome : clusterAt (fun j => if j = i then nm else names' j) ids as i =
              some ⟨nm, bucketIds ids as i⟩ := by
            unfold clusterAt
            rw [if_neg hb]
            simp
          have ht : todo.filterMap
              (clusterAt (fun j => if j = i then nm else names' j) ids as) =
              todo.filterMap (clusterAt names' ids as) := by
            apply List.filterMap_congr
            intro j hj
            have hne : j ≠ i := fun he =>
              (List.nodup_cons.mp hnodup).1 (he ▸ hj)
            unfold clusterAt
            simp [hne]
          rw [← Except.ok.inj h']
          simp only [List.filterMap_cons, hsome, ht, ← hrest]
          rfl

theorem flatten_map_nil {α β : Type} (L : List α) :
    (L.map fun _ => ([] : List β)).flatten = [] := by
  induction L with
  | nil => rfl
  | cons a t ih => simp [ih]

theorem insert_bucket_perm (g : Nat → List Nat) (a s : Nat) :
    ∀ (L : List Nat), a ∈ L → L.Nodup →
    ((L.map fun i => (if a = i then [s] else []) ++ g i).flatten).Perm
      (s :: (L.map g).flatten) := by
  intro L
  induction L with
  | nil => intro ha; exact absurd ha (by simp)
  | cons b L' ih =>
    intro ha hnodup
    rw [List.map_cons, List.flatten_cons, List.map_cons, List.flatten_cons]
    by_cases hab : a = b
    · subst hab
      rw [if_pos rfl]
      have hmap : L'.map (fun i => (if a = i then [s] else []) ++ g i) =
          L'.map g := by
        apply List.map_congr_left
        intro j hj
        have hne : a ≠ j := fun he => (List.nodup_cons.mp hnodup).1 (he ▸ hj)
        rw [if_neg hne]
        simp
      rw [hmap]
      simp
    · have ha' : a ∈ L' := by
        rcases List.mem_cons.mp ha with h | h
        · exact absurd h hab
        · exact h
      rw [if_neg hab]
      simp only [List.nil_append]
      exact ((ih ha' hnodup.of_cons).append_left (g b)).trans List.perm_middle

theorem indices_flatten_perm (k : Nat) :
    ∀ (as : List Nat) (s : Nat), (∀ a ∈ as, a < k) →
    (((List.range k).map fun i => indicesWithAssignment as i s).flatten).Perm
      (List.range' s as.length) := by
  intro as
  induction as with
  | nil =>
    intro s _
    have hmap : (List.range k).map (fun i => indicesWithAssignment [] i s) =
        (List.range k).map fun _ => ([] : List Nat) :=
      List.map_congr_left fun i _ => rfl
    rw [hmap, flatten_map_nil, List.length_nil]
    exact List.Perm.refl []
  | cons a rest ih =>
    intro s hbnd
    have hmap : (List.range k).map (fun i => indicesWithAssignment (a :: rest) i s) =
        (List.range k).map fun i =>
          (if a = i then [s] else []) ++ indicesWithAssignment rest i (s + 1) :=
      List.map_congr_left fun i _ => rfl
    rw [hmap, List.length_cons, List.range'_succ]
    exact (insert_bucket_perm (fun i => indicesWithAssignment rest i (s + 1)) a s
      (List.range k) (List.mem_range.mpr (hbnd a (List.mem_cons_self a rest)))
      (List.nodup_range k)).trans
      ((ih (s + 1) fun x hx => hbnd x (List.mem_cons_of_mem a hx)).cons s)

theorem flatten_filterMap_clusterAt (names : Nat → String) (ids : List String)
    (as : List Nat) :
    ∀ (L : List Nat),
    ((L.filterMap (clusterAt names ids as)).map fun c => c.projectIds).flatten =
      (L.map fun i => bucketIds ids as i).flatten := by
  intro L
  induction L with
  | nil => rfl
  | cons i todo ih =>
    by_cases hb : indicesWithAssignment as i 0 = []
    · have h0 : clusterAt names ids as i = none := by
        unfold clusterAt
        rw [if_pos hb]
      have h1 : bucketIds ids as i = [] := by
        unfold bucketIds
        rw [hb]
        rfl
      simp only [List.filterMap_cons, h0, List.map_cons, List.flatten_cons, h1,
        List.nil_append, ih]
    · have h0 : clusterAt names ids as i = some ⟨names i, bucketIds ids as i⟩ := by
        unfold clusterAt
        rw [if_neg hb]
      simp only [List.filterMap_cons, h0, List.map_cons, List.flatten_cons, ih]

theorem flatten_map_map {α β : Type} (h : α → β) :
    ∀ (L : List Nat) (f : Nat → List α),
    (L.map fun i => (f i).map h).flatten = ((L.map f).flatten).map h := by
  intro L
  induction L with
  | nil => intro f; rfl
  | cons i todo ih =>
    intro f
    simp [List.map_append, ih]

theorem map_getD_range {α : Type} (d : α) : ∀ (l : List α),
    (List.range l.length).map (fun i => l.getD i d) = l := by
  intro l
  induction l with
  | nil => rfl
  | cons a t ih =>
    rw [List.length_cons, List.range_succ_eq_map, List.map_cons, List.map_map]
    have hfun : ((fun i => (a :: t).getD i d) ∘ Nat.succ) =
        fun i => t.getD i d := funext fun i => List.getD_cons_succ
    rw [hfun, ih]
    rfl

/-- Claim C9: in every successful pipeline run no returned cluster has zero
members (empty buckets are silently dropped, not reported as errors), the
member ids of the returned clusters are — as a multiset — exactly the
eligible project ids, so each eligible project appears in exactly one
returned cluster, and the cluster list is the ascending-bucket-index
traversal of the buckets of an in-range assignment. -/
theorem handleClusterProjects_ok (projects : List Project)
    (embedApi : List String → Except String (List (List ℚ)))
    (nameApi : String → Except String String) (rng : Nat → Nat) (fuel : Nat)
    (cs : List Cluster)
    (h : handleClusterProjects projects embedApi nameApi rng fuel = Except.ok cs) :
    pipelineOutputOK projects cs := by
  unfold handleClusterProjects at h
  by_cases hlen : projects.length < 2
  · rw [if_pos hlen] at h
    exact Except.noConfusion h
  rw [if_neg hlen] at h
  cases hemb : embedContentBatch embedApi
      ((promptsToEmbed projects).map fun p => p.2) with
  | error e =>
    rw [hemb] at h
    exact Except.noConfusion h
  | ok embeddings =>
    rw [hemb] at h
    set as := (kmeans ((pipelineData projects embeddings).map fun d => d.2)
      (numClusters projects) rng fuel 50).assignments with has
    have h2 : clustersLoop projects nameApi
        ((pipelineData projects embeddings).map fun d => d.1) as
        (List.range (numClusters projects)) = Except.ok cs := h
    have hidsE : (pipelineData projects embeddings).map (fun d => d.1) =
        (eligibleProjects projects).map fun p => p.id := by
      unfold pipelineData
      rw [List.map_map]
      have h3 : ((fun d : String × List ℚ => d.1) ∘
          fun q : Nat × (String × String) => (q.2.1, embeddings.getD q.1 [])) =
          (fun p : String × String => p.1) ∘ Prod.snd := rfl
      rw [h3, ← List.map_map, List.enum_map_snd]
      unfold promptsToEmbed
      rw [List.map_map]
      rfl
    have hdlen : ((pipelineData projects embeddings).map fun d => d.2).length =
        (eligibleProjects projects).length := by
      simp [pipelineData, promptsToEmbed]
    by_cases hE0 : eligibleProjects projects = []
    · have hk0 : numClusters projects = 0 := by
        unfold numClusters
        rw [hE0]
        rfl
      rw [hk0] at h2
      have h4 : Except.ok ([] : List Cluster) = Except.ok cs := h2
      obtain rfl : cs = [] := (Except.ok.inj h4).symm
      refine ⟨by simp, ?_, [], fun _ => "", ?_, by simp, ?_⟩
      · rw [hE0]
        exact List.Perm.refl []
      · rw [hE0]
        rfl
      · rw [hE0]
        rfl
    · have hk1 : 1 ≤ numClusters projects := by
        unfold numClusters
        have h5 : 0 < (eligibleProjects projects).length := List.length_pos.mpr hE0
        omega
      have hdne : ((pipelineData projects embeddings).map fun d => d.2) ≠ [] := by
        intro hc
        apply hE0
        have h6 := congrArg List.length hc
        rw [hdlen] at h6
        exact List.length_eq_zero.mp (by simpa using h6)
      obtain ⟨haslen, habnd⟩ := kmeans_inv
        ((pipelineData projects embeddings).map fun d => d.2)
        (numClusters projects) rng fuel 50 hdne hk1
      obtain ⟨names, hcs⟩ := clustersLoop_ok_characterization projects nameApi
        ((pipelineData projects embeddings).map fun d => d.1) as
        (List.range (numClusters projects)) (List.nodup_range _) cs h2
      rw [hidsE] at hcs
      refine ⟨?_, ?_, as, names, ?_, habnd, hcs⟩
      · intro c hc
        rw [hcs] at hc
        obtain ⟨i, hi, hsome⟩ := List.mem_filterMap.mp hc
        unfold clusterAt at hsome
        by_cases hb : indicesWithAssignment as i 0 = []
        · rw [if_pos hb] at hsome
          exact Option.noConfusion hsome
        · rw [if_neg hb] at hsome
          have hc2 : c = ⟨names i,
              bucketIds ((eligibleProjects projects).map fun p => p.id) as i⟩ :=
            (Option.some.inj hsome).symm
          rw [hc2]
          intro hnil
          exact hb (List.map_eq_nil_iff.mp hnil)
      · rw [hcs, flatten_filterMap_clusterAt]
        have hbuck : ((List.range (numClusters projects)).map fun i =>
            bucketIds ((eligibleProjects projects).map fun p => p.id) as i) =
            (List.range (numClusters projects)).map fun i =>
              (indicesWithAssignment as i 0).map fun idx =>
                ((eligibleProjects projects).map fun p => p.id).getD idx "" := rfl
        rw [hbuck, flatten_map_map]
        have hperm := (indices_flatten_perm (numClusters projects) as 0 habnd).map
          (fun idx => ((eligibleProjects projects).map fun p => p.id).getD idx "")
        have hlen2 : as.length =
            ((eligibleProjects projects).map fun p => p.id).length := by
          rw [haslen, hdlen, List.length_map]
        have heq : (List.range' 0 as.length).map
            (fun idx => ((eligibleProjects projects).map fun p => p.id).getD idx "") =
            (eligibleProjects projects).map fun p => p.id := by
          rw [← List.range_eq_range', hlen2, map_getD_range]
        rw [heq] at hperm
        exact hperm
      · rw [haslen, hdlen]

/-- Witness for C9: the concrete successful two-project run. -/
theorem handleClusterProjects_ok_witness :
    pipelineOutputOK [projNoPrompts, projRocket] [⟨"Name", ["b"]⟩] :=
  handleClusterProjects_ok [projNoPrompts, projRocket] stubEmbed stubName
    (fun t => t) 4 [⟨"Name", ["b"]⟩] rfl
